import Mathlib

/-
  Verification of the employee operation-scoring application
  (employee_scoring_app2.py).

  The embedding below translates the scoring core of the program:
  the penalty table ERROR_PENALTIES, the scoring function
  calculate_score, the per-record evaluator evaluate_all_operations,
  and the groupby-mean aggregations computed by the scoring-trigger
  handler.  Python numbers (ints and floats) are modelled as rationals;
  every concrete value arising in the claims is dyadic, where Python
  float arithmetic is exact.
-/

namespace EmployeeScoring

/-- Penalty table from the source: error-category label to integer
penalty points (lines 26-42 of the source). -/
def ERROR_PENALTIES : List (String × Int) := [
  ("安全隐患", 30),
  ("未按规定处理废弃物", 15),
  ("未做好交接/记录", 12),
  ("未挂标识牌", 10),
  ("液封不合格", 10),
  ("参数设置错误", 10),
  ("操作顺序错误", 8),
  ("遗漏清点", 8),
  ("放置不当", 7),
  ("未及时完成", 7),
  ("清洁不彻底", 6),
  ("操作不规范", 5),
  ("工具/器具未归位", 4),
  ("文件记录不规范", 3),
  ("其他错误", 5)
]

/-- Python dict.get with a fallback value: association-list lookup. -/
def dictGet (d : List (String × Int)) (key : String) (fallback : Int) : Int :=
  match d.lookup key with
  | some v => v
  | none => fallback

/-- Penalty lookup exactly as on source line 87:
ERROR_PENALTIES.get(error_type, ERROR_PENALTIES.get("其他错误", 5)). -/
def penalty (error_type : String) : Int :=
  dictGet ERROR_PENALTIES error_type (dictGet ERROR_PENALTIES "其他错误" 5)

/-- Multiselect catalog (source lines 45-49); it excludes "安全隐患". -/
def PREDEFINED_ERROR_OPTIONS : List String := [
  "遗漏清点", "放置不当", "未做好交接/记录", "未挂标识牌", "清洁不彻底",
  "未按规定处理废弃物", "工具/器具未归位", "液封不合格", "文件记录不规范",
  "操作顺序错误", "参数设置错误", "操作不规范", "未及时完成", "其他错误"
]

/-- Accumulated penalty of the for-loop on source lines 85-88. -/
def total_error_penalty (error_types_list : List String) : Int :=
  (error_types_list.map penalty).sum

/-- Scoring function, source lines 72-104.  The completion degree is a
Python number (the slider supplies an int, the function itself accepts
any float), modelled as a rational; penalties are ints cast into the
rational computation exactly as Python mixes ints into float
arithmetic. -/
def calculate_score (completion_degree : ℚ) (error_types_list : List String) : ℚ :=
  let raw : ℚ := completion_degree - (total_error_penalty error_types_list : ℚ)
  let adjusted : ℚ :=
    if completion_degree ≥ 95 ∧ total_error_penalty error_types_list = 0 then 100
    else if completion_degree ≥ 90 ∧ "安全隐患" ∉ error_types_list then max 85 raw
    else if completion_degree ≥ 80 ∧ "安全隐患" ∉ error_types_list then max 75 raw
    else if completion_degree < 70 then min raw 60
    else raw
  max 0 (min 100 adjusted)

/-- Helper: a successful association-list lookup returns a stored pair. -/
lemma lookup_mem {d : List (String × Int)} {k : String} {v : Int}
    (h : d.lookup k = some v) : (k, v) ∈ d := by
  induction d with
  | nil => simp [List.lookup] at h
  | cons p t ih =>
      obtain ⟨a, b⟩ := p
      simp only [List.lookup] at h
      split at h
      · next heq =>
          obtain rfl : k = a := by simpa using heq
          obtain rfl : b = v := by injection h
          exact List.mem_cons_self _ _
      · exact List.mem_cons_of_mem _ (ih h)

/-- Helper: every value stored in the penalty table is at least 3. -/
lemma penalty_table_values (p : String × Int) (hp : p ∈ ERROR_PENALTIES) :
    3 ≤ p.2 := by
  fin_cases hp <;> norm_num

/-- Helper: every category's penalty is at least 3 (table values are in
[3,30] and the fallback is 5). -/
lemma three_le_penalty (e : String) : 3 ≤ penalty e := by
  have hfb : dictGet ERROR_PENALTIES "其他错误" 5 = 5 := by decide
  unfold penalty
  rw [hfb]
  unfold dictGet
  cases h : ERROR_PENALTIES.lookup e with
  | none => norm_num
  | some v => exact penalty_table_values (e, v) (lookup_mem h)

/-- Helper: the accumulated penalty of any error list is nonnegative. -/
lemma total_error_penalty_nonneg (l : List String) :
    0 ≤ total_error_penalty l := by
  unfold total_error_penalty
  apply List.sum_nonneg
  intro x hx
  rcases List.mem_map.mp hx with ⟨e, _, rfl⟩
  linarith [three_le_penalty e]

/-- Helper: appending one more error adds its penalty to the total. -/
lemma total_error_penalty_append (l : List String) (e : String) :
    total_error_penalty (l ++ [e]) = total_error_penalty l + penalty e := by
  unfold total_error_penalty
  simp

/-- Claim C1: for every completion degree (also outside [0,100]) and
every error list, calculate_score lies in [0,100]. -/
theorem calculate_score_in_range (c : ℚ) (errors : List String) :
    0 ≤ calculate_score c errors ∧ calculate_score c errors ≤ 100 := by
  unfold calculate_score
  refine ⟨le_max_left _ _, max_le (by norm_num) (min_le_left _ _)⟩

/-- Claim C5: for every completion degree in [95,100] with an empty
error list, the score is exactly 100. -/
theorem score_perfect_band (c : ℚ) (h1 : 95 ≤ c) (h2 : c ≤ 100) :
    calculate_score c [] = 100 := by
  have hz : total_error_penalty [] = 0 := rfl
  simp only [calculate_score]
  rw [if_pos ⟨h1, hz⟩]
  norm_num [max_def, min_def]

/-- Witness for claim C5 at completion degree 97. -/
theorem score_perfect_band_witness :
    (95 : ℚ) ≤ 97 ∧ (97 : ℚ) ≤ 100 ∧ calculate_score 97 [] = 100 :=
  ⟨by norm_num, by norm_num, score_perfect_band 97 (by norm_num) (by norm_num)⟩

/-- Claim C6: for every completion degree below 70 and every error
list, the score is at most 60. -/
theorem score_low_band_capped (c : ℚ) (errors : List String) (h : c < 70) :
    calculate_score c errors ≤ 60 := by
  simp only [calculate_score]
  split_ifs with h1 h2 h3
  · linarith [h1.1]
  · linarith [h2.1]
  · linarith [h3.1]
  · exact max_le (by norm_num)
      (le_trans (min_le_right _ _) (min_le_right _ _))

/-- Witness for claim C6 at completion degree 60 with the severe
category present. -/
theorem score_low_band_capped_witness :
    (60 : ℚ) < 70 ∧ calculate_score 60 ["安全隐患"] ≤ 60 :=
  ⟨by norm_num, score_low_band_capped 60 ["安全隐患"] (by norm_num)⟩

/-- Claim C3: the severe category disables the floor overrides at
completion degree 92: the score with it is strictly below the score
without it. -/
theorem severe_disables_floor :
    calculate_score 92 ["安全隐患"] < calculate_score 92 [] := by
  norm_num [calculate_score, total_error_penalty, penalty, dictGet,
    List.lookup, ERROR_PENALTIES, max_def, min_def]

/-- Helper: the final clamp is monotone in its argument. -/
lemma clamp_mono {a b : ℚ} (h : a ≤ b) :
    max 0 (min 100 a) ≤ max 0 (min 100 b) :=
  max_le_max le_rfl (min_le_min le_rfl h)

/-- Helper: the final clamp never exceeds 100. -/
lemma clamp_le_100 (a : ℚ) : max 0 (min 100 a) ≤ 100 :=
  max_le (by norm_num) (min_le_left _ _)

/-- Helper: appending one more error category never raises the score.
Case analysis follows the if/elif chain of the scoring function. -/
lemma calculate_score_append_le (c : ℚ) (E : List String) (e : String) :
    calculate_score c (E ++ [e]) ≤ calculate_score c E := by
  have hp : 3 ≤ penalty e := three_le_penalty e
  have hnn : 0 ≤ total_error_penalty E := total_error_penalty_nonneg E
  have hraw : c - ((total_error_penalty (E ++ [e]) : ℤ) : ℚ)
      ≤ c - ((total_error_penalty E : ℤ) : ℚ) := by
    rw [total_error_penalty_append]
    push_cast
    have : (0:ℚ) ≤ (penalty e : ℚ) := by exact_mod_cast le_trans (by norm_num) hp
    linarith
  by_cases hA : c ≥ 95 ∧ total_error_penalty E = 0
  · simp only [calculate_score]
    rw [if_pos hA]
    refine le_trans (clamp_le_100 _) ?_
    rw [min_self]
    exact le_max_right _ _
  · have hA2 : ¬(c ≥ 95 ∧ total_error_penalty (E ++ [e]) = 0) := by
      rintro ⟨h95, h0⟩
      rw [total_error_penalty_append] at h0
      linarith
    simp only [calculate_score]
    rw [if_neg hA2, if_neg hA]
    apply clamp_mono
    by_cases hs : "安全隐患" ∈ E
    · have ht : "安全隐患" ∈ E ++ [e] := List.mem_append_left _ hs
      simp only [hs, ht, not_true, and_false, if_false]
      split_ifs
      · exact min_le_min hraw le_rfl
      · exact hraw
    · by_cases he : "安全隐患" ∈ [e]
      · have ht : "安全隐患" ∈ E ++ [e] := List.mem_append_right _ he
        simp only [hs, ht, not_true, not_false_iff, and_false, and_true, if_false]
        split_ifs with h70 h90 h80 h90b h80b
        · linarith
        · linarith
        · exact min_le_min hraw le_rfl
        · exact le_trans hraw (le_max_right _ _)
        · exact le_trans hraw (le_max_right _ _)
        · exact hraw
      · have ht : "安全隐患" ∉ E ++ [e] := by
          intro hmem
          rcases List.mem_append.mp hmem with h | h
          · exact hs h
          · exact he h
        simp only [hs, ht, not_false_iff, and_true]
        split_ifs with h90 h80 h70
        · exact max_le_max le_rfl hraw
        · exact max_le_max le_rfl hraw
        · exact min_le_min hraw le_rfl
        · exact hraw

/-- Claim C9: adding an error category never raises a score: appending
any category to any error list keeps the score at most what it was. -/
theorem score_antitone_in_errors (c : ℚ) (E : List String) (e : String) :
    calculate_score c (E ++ [e]) ≤ calculate_score c E :=
  calculate_score_append_le c E e

/-- Claim C2, counterexample: at completion degree 75 a duplicated
severe category scores 15 while a single occurrence scores 45, so
duplicates are not penalty-neutral. -/
theorem severe_duplicate_changes_score :
    calculate_score 75 ["安全隐患", "安全隐患"] ≠ calculate_score 75 ["安全隐患"] := by
  norm_num [calculate_score, total_error_penalty, penalty, dictGet,
    List.lookup, ERROR_PENALTIES, max_def, min_def]

/-- Claim C2, amended: duplicate entries of the severe category are
penalized per occurrence; the duplicated list never scores higher than
the single occurrence, and can score strictly lower. -/
theorem severe_duplicate_never_higher (c : ℚ) :
    calculate_score c ["安全隐患", "安全隐患"] ≤ calculate_score c ["安全隐患"] :=
  calculate_score_append_le c ["安全隐患"] "安全隐患"

/-- Integer mirror of the scoring function: the same algorithm
evaluated in exact integer arithmetic, used to state in what sense the
result of calculate_score is an integer. -/
def calculate_scoreInt (completion_degree : Int) (error_types_list : List String) : Int :=
  let raw : Int := completion_degree - total_error_penalty error_types_list
  let adjusted : Int :=
    if completion_degree ≥ 95 ∧ total_error_penalty error_types_list = 0 then 100
    else if completion_degree ≥ 90 ∧ "安全隐患" ∉ error_types_list then max 85 raw
    else if completion_degree ≥ 80 ∧ "安全隐患" ∉ error_types_list then max 75 raw
    else if completion_degree < 70 then min raw 60
    else raw
  max 0 (min 100 adjusted)

/-- Helper: on an integer completion degree the rational scoring
function agrees with its integer mirror. -/
lemma calculate_score_intCast (n : Int) (l : List String) :
    calculate_score (n : ℚ) l = ((calculate_scoreInt n l : Int) : ℚ) := by
  simp only [calculate_score, calculate_scoreInt]
  by_cases h1 : n ≥ 95 ∧ total_error_penalty l = 0
  · have h1Q : (n:ℚ) ≥ 95 ∧ total_error_penalty l = 0 :=
      ⟨by exact_mod_cast h1.1, h1.2⟩
    rw [if_pos h1Q, if_pos h1]
    push_cast
    norm_num
  · have h1Q : ¬((n:ℚ) ≥ 95 ∧ total_error_penalty l = 0) :=
      fun h => h1 ⟨by exact_mod_cast h.1, h.2⟩
    rw [if_neg h1Q, if_neg h1]
    by_cases h2 : n ≥ 90 ∧ "安全隐患" ∉ l
    · have h2Q : (n:ℚ) ≥ 90 ∧ "安全隐患" ∉ l := ⟨by exact_mod_cast h2.1, h2.2⟩
      rw [if_pos h2Q, if_pos h2]
      push_cast
      ring
    · have h2Q : ¬((n:ℚ) ≥ 90 ∧ "安全隐患" ∉ l) :=
        fun h => h2 ⟨by exact_mod_cast h.1, h.2⟩
      rw [if_neg h2Q, if_neg h2]
      by_cases h3 : n ≥ 80 ∧ "安全隐患" ∉ l
      · have h3Q : (n:ℚ) ≥ 80 ∧ "安全隐患" ∉ l := ⟨by exact_mod_cast h3.1, h3.2⟩
        rw [if_pos h3Q, if_pos h3]
        push_cast
        ring
      · have h3Q : ¬((n:ℚ) ≥ 80 ∧ "安全隐患" ∉ l) :=
          fun h => h3 ⟨by exact_mod_cast h.1, h.2⟩
        rw [if_neg h3Q, if_neg h3]
        by_cases h4 : n < 70
        · have h4Q : (n:ℚ) < 70 := by exact_mod_cast h4
          rw [if_pos h4Q, if_pos h4]
          push_cast
          ring
        · have h4Q : ¬((n:ℚ) < 70) := fun h => h4 (by exact_mod_cast h)
          rw [if_neg h4Q, if_neg h4]
          push_cast
          ring

/-- Claim C7, counterexample: at the non-integer completion degree
75.5 (which the function's declared domain admits) with no errors, the
result is 75.5, which is not an integer. -/
theorem score_not_integral_on_fractional_input :
    calculate_score (151/2) [] = 151/2 ∧
    ¬ ∃ m : Int, calculate_score (151/2) [] = (m : ℚ) := by
  have heval : calculate_score (151/2 : ℚ) [] = 151/2 := by
    norm_num [calculate_score, total_error_penalty, max_def, min_def]
  refine ⟨heval, ?_⟩
  rintro ⟨m, hm⟩
  rw [heval] at hm
  have h2 : (151:ℤ) = m * 2 := by
    field_simp at hm
    exact_mod_cast hm
  omega

/-- Claim C7, amended: for every integer completion degree and every
error list, calculate_score returns an integer in [0,100]: it equals
the integer-arithmetic mirror of the algorithm, whose value is clamped
into [0,100]. -/
theorem score_integral_on_integer_input (n : Int) (l : List String) :
    calculate_score (n : ℚ) l = ((calculate_scoreInt n l : Int) : ℚ) ∧
    0 ≤ calculate_scoreInt n l ∧ calculate_scoreInt n l ≤ 100 := by
  refine ⟨calculate_score_intCast n l, ?_, ?_⟩
  · exact le_max_left _ _
  · exact max_le (by norm_num) (min_le_left _ _)

/-- Raw entry record, with the fields the form submit handler stores
(source lines 244-252). -/
structure OperationRecord where
  employee_id : String
  date : String
  operation_description : String
  operation_remark : String
  completion_degree : ℚ
  error_types : List String
  has_safety_hazard_display : String

/-- Scored record, with the fields the evaluation loop keeps (source
lines 123-129). -/
structure ScoredOperation where
  employee_id : String
  date : String
  score : ℚ
  operation_description : String
  error_types : List String

/-- Body of the evaluation loop, source lines 121-129: score one
record and keep the context columns. -/
def score_operation (op : OperationRecord) : ScoredOperation :=
  { employee_id := op.employee_id
    date := op.date
    score := calculate_score op.completion_degree op.error_types
    operation_description := op.operation_description
    error_types := op.error_types }

/-- Per-record evaluator, source lines 107-130: empty input yields an
empty frame, otherwise every record is scored in order. -/
def evaluate_all_operations (operations_data : List OperationRecord) : List ScoredOperation :=
  if operations_data.isEmpty then []
  else operations_data.map score_operation

/-- Distinct group keys of a column, in order of first occurrence.
Models the grouping of pandas groupby in the scoring-trigger handler;
pandas sorts group keys, but every grouping appearing in the claims
below has its first-occurrence order already sorted, and on empty
input both orders are the empty sequence. -/
def group_keys {α : Type} [DecidableEq α] (l : List α) : List α :=
  l.foldl (fun acc k => if k ∈ acc then acc else acc ++ [k]) []

/-- Unweighted arithmetic mean of a column, as computed by pandas
mean() within one group. -/
def listMean (l : List ℚ) : ℚ := l.sum / (l.length : ℚ)

/-- Daily averages, source lines 291-293: group the scored operations
by (employee_id, date) and take the mean score of each group. -/
def daily_employee_scores (scored : List ScoredOperation) : List (String × String × ℚ) :=
  (group_keys (scored.map (fun s => (s.employee_id, s.date)))).map
    (fun k => (k.1, k.2, listMean ((scored.filter
      (fun s => (s.employee_id, s.date) == k)).map (fun s => s.score))))

/-- Overall averages, source lines 299-301: group the scored
operations by employee_id and take the mean score of each group. -/
def overall_employee_scores (scored : List ScoredOperation) : List (String × ℚ) :=
  (group_keys (scored.map (fun s => s.employee_id))).map
    (fun k => (k, listMean ((scored.filter
      (fun s => s.employee_id == k)).map (fun s => s.score))))

/-- Claim C8: empty input is not an error anywhere in the pipeline --
the evaluator and both aggregations map the empty input to empty
output -- and on any input the evaluator maps the scoring function
over every record, preserving input order. -/
theorem pipeline_empty_and_order :
    evaluate_all_operations [] = [] ∧ daily_employee_scores [] = [] ∧
    overall_employee_scores [] = [] ∧
    ∀ ops : List OperationRecord,
      evaluate_all_operations ops = ops.map score_operation := by
  refine ⟨rfl, rfl, rfl, ?_⟩
  intro ops
  cases ops with
  | nil => rfl
  | cons h t => rfl

/-- First scenario record of claim C4: employee A, completion 100, no
errors. -/
def record_A1 : OperationRecord :=
  { employee_id := "A", date := "2025-06-01",
    operation_description := "中间产品", operation_remark := "",
    completion_degree := 100, error_types := [],
    has_safety_hazard_display := "否" }

/-- Second scenario record of claim C4: employee A, completion 85, one
medium error. -/
def record_A2 : OperationRecord :=
  { employee_id := "A", date := "2025-06-01",
    operation_description := "样品瓶", operation_remark := "",
    completion_degree := 85, error_types := ["未挂标识牌"],
    has_safety_hazard_display := "否" }

/-- Third scenario record of claim C4: employee B, completion 60, the
severe error. -/
def record_B1 : OperationRecord :=
  { employee_id := "B", date := "2025-06-01",
    operation_description := "废弃物", operation_remark := "",
    completion_degree := 60, error_types := ["安全隐患"],
    has_safety_hazard_display := "是" }

/-- Claim C4: on the three scenario records the per-operation scores
are 100, 75 and 30, and the overall averages are 87.5 for employee A
and 30 for employee B. -/
theorem scenario_scores_and_averages :
    (evaluate_all_operations [record_A1, record_A2, record_B1]).map
      (fun s => s.score) = [100, 75, 30] ∧
    overall_employee_scores
      (evaluate_all_operations [record_A1, record_A2, record_B1]) =
      [("A", 175/2), ("B", 30)] := by
  have p2 : total_error_penalty ["未挂标识牌"] = 10 := by decide
  have p3 : total_error_penalty ["安全隐患"] = 30 := by decide
  have p0 : total_error_penalty [] = 0 := by decide
  have m2 : "安全隐患" ∉ (["未挂标识牌"] : List String) := by decide
  have m3 : "安全隐患" ∈ (["安全隐患"] : List String) := by decide
  have s1 : calculate_score (100:ℚ) [] = 100 := by
    norm_num [calculate_score, p0, max_def, min_def]
  have s2 : calculate_score (85:ℚ) ["未挂标识牌"] = 75 := by
    norm_num [calculate_score, p2, m2, max_def, min_def]
  have s3 : calculate_score (60:ℚ) ["安全隐患"] = 30 := by
    norm_num [calculate_score, p3, m3, max_def, min_def]
  have hd : group_keys (["A", "A", "B"] : List String) = ["A", "B"] := by decide
  constructor
  · simp [evaluate_all_operations, score_operation,
      record_A1, record_A2, record_B1, s1, s2, s3]
  · simp [evaluate_all_operations, score_operation, overall_employee_scores,
      listMean, record_A1, record_A2, record_B1, s1, s2, s3, hd]
    norm_num

/-- Error list assembled by the form submit handler, source lines
240-242: the multiselect choices, plus the severe category appended
once when the checkbox is set. -/
def final_error_types (selected_error_types : List String)
    (has_safety_hazard : Bool) : List String :=
  if has_safety_hazard then selected_error_types ++ ["安全隐患"]
  else selected_error_types

/-- Claim C10: a record created through the entry form carries the
severe category at most once, because the multiselect catalog excludes
it and the checkbox appends it at most once. -/
theorem form_severe_at_most_once (sel : List String) (b : Bool)
    (h : ∀ x ∈ sel, x ∈ PREDEFINED_ERROR_OPTIONS) :
    (final_error_types sel b).count "安全隐患" ≤ 1 := by
  have hsev : "安全隐患" ∉ PREDEFINED_ERROR_OPTIONS := by decide
  have hnot : "安全隐患" ∉ sel := fun hmem => hsev (h _ hmem)
  have hcount : sel.count "安全隐患" = 0 := List.count_eq_zero.mpr hnot
  cases b with
  | false => simp [final_error_types, hcount]
  | true => simp [final_error_types, List.count_append, hcount]

/-- Witness for claim C10: one multiselect choice plus the checkbox. -/
theorem form_severe_at_most_once_witness :
    (∀ x ∈ (["遗漏清点"] : List String), x ∈ PREDEFINED_ERROR_OPTIONS) ∧
    (final_error_types ["遗漏清点"] true).count "安全隐患" ≤ 1 :=
  ⟨by decide, form_severe_at_most_once ["遗漏清点"] true (by decide)⟩

end EmployeeScoring
